import Mathlib

/-
Verification of the WebSocket/MCP session layer of the strudel-llm fork.

The subject is the React hook `useWebSocketMCP` which exists in two copies in
the repository: the named file `src/website/src/repl/useWebSocketMCP.jsx`
(modelled below by `onMessage`, `sendCurrentCodeToServer`, `isMCPServerChannel`,
`isMCPServerBridge`, `publishBridge`, and the connection machine
`connectWebSocket` / `wsOnOpen` / `wsOnClose` / `wsOnError` / `cleanup` /
`timerFire`), and an unnamed duplicate (`src/unnamed/part_001`, modelled by
`onMessageB` and `sendCurrentCodeToServerB` where it diverges).

The embedding is shallow: the editor reference `editorRef.current` becomes an
`Option Editor`; a read of the current code that may throw becomes the
`EditorRead` sum; JS falsiness of the read string is captured by the empty
string (the only falsy string); wall-clock time `Date.now()` is a `Nat`
parameter; the WebSocket readyState check becomes a `wsOpen : Bool` parameter;
`setTimeout(connectWebSocket, 3000)` becomes appending an absolute fire time to
a list of pending timers.
-/

namespace StrudelMCP

/-- Result of reading the current code from the editor adapter: the read either
throws or yields a string (`editorRef.current.code` in the named hook,
`editorRef.current.getCode()` in the unnamed duplicate). A JS falsy read result
is modelled by the empty string. -/
inductive EditorRead where
  | throws
  | value (code : String)
  deriving DecidableEq

/-- The attached editor adapter, characterised by what a code read yields. -/
structure Editor where
  read : EditorRead
  deriving DecidableEq

/-- Mutating operations the handlers invoke on the editor adapter, in call
order. -/
inductive EditorCall where
  | setCode (code : String)
  | evaluate
  | stop
  deriving DecidableEq

/-- Protocol frames: the tagged union keyed by the `type` field of each JSON
message. `other` stands for any unrecognized tag. -/
inductive Frame where
  | strudelCode (code : String) (description : Option String)
  | strudelStop
  | stop
  | getCurrentCode (requestId : String)
  | currentCodeResponse (requestId : String) (code : String) (timestamp : Nat)
  | ping
  | pong
  | other (tag : String)
  deriving DecidableEq

/-- Effects of handling one inbound frame: editor calls made (in order), frames
sent back on the channel (in order), and whether the handler closed the
channel (no handler ever does). -/
structure HandlerResult where
  editorCalls : List EditorCall
  sent : List Frame
  channelClosed : Bool
  deriving DecidableEq

/-- `sendCurrentCodeToServer` of the named hook
(src/website/src/repl/useWebSocketMCP.jsx lines 90-136). Absent editor sends a
fixed not-ready payload; a throwing read is caught and replaced by a fixed
retrieval-error payload; a falsy (empty) read is replaced by a fixed
placeholder; the send happens only when the socket is open. -/
def sendCurrentCodeToServer (editor : Option Editor) (wsOpen : Bool)
    (requestId : String) (now : Nat) : List Frame :=
  match editor with
  | none =>
    if wsOpen then
      [Frame.currentCodeResponse requestId "// Error: Editor not ready" now]
    else []
  | some ed =>
    match ed.read with
    | EditorRead.throws =>
      if wsOpen then
        [Frame.currentCodeResponse requestId "// Error: Could not retrieve code" now]
      else []
    | EditorRead.value c =>
      let currentCode := if c = "" then "// No code in editor" else c
      if wsOpen then
        [Frame.currentCodeResponse requestId currentCode now]
      else []

/-- `sendCurrentCodeToServer` of the unnamed duplicate
(src/unnamed/part_001 lines 89-110). Absent editor returns without sending
anything; a throwing `getCode()` propagates the exception to the caller
(modelled by `Except.error`); otherwise a falsy (empty) read is replaced by the
placeholder and the frame is sent only when the socket is open. -/
def sendCurrentCodeToServerB (editor : Option Editor) (wsOpen : Bool)
    (requestId : String) (now : Nat) : Except Unit (List Frame) :=
  match editor with
  | none => Except.ok []
  | some ed =>
    match ed.read with
    | EditorRead.throws => Except.error ()
    | EditorRead.value c =>
      let currentCode := if c = "" then "// No code in editor" else c
      Except.ok
        (if wsOpen then
           [Frame.currentCodeResponse requestId currentCode now]
         else [])

/-- The `onmessage` handler of the named hook
(src/website/src/repl/useWebSocketMCP.jsx lines 42-76). `parsed = none` is a
frame that failed to parse as JSON: the exception is caught, logged and the
handler returns with no effect. Recognized tags dispatch exactly as in the
source; any other tag falls through every branch. -/
def onMessage (editor : Option Editor) (wsOpen : Bool) (now : Nat)
    (parsed : Option Frame) : HandlerResult :=
  match parsed with
  | none => { editorCalls := [], sent := [], channelClosed := false }
  | some msg =>
    match msg with
    | Frame.strudelCode code _description =>
      match editor with
      | some _ =>
        { editorCalls := [EditorCall.setCode code, EditorCall.evaluate],
          sent := [], channelClosed := false }
      | none => { editorCalls := [], sent := [], channelClosed := false }
    | Frame.strudelStop | Frame.stop =>
      match editor with
      | some _ => { editorCalls := [EditorCall.stop], sent := [], channelClosed := false }
      | none => { editorCalls := [], sent := [], channelClosed := false }
    | Frame.getCurrentCode requestId =>
      { editorCalls := [],
        sent := sendCurrentCodeToServer editor wsOpen requestId now,
        channelClosed := false }
    | Frame.ping =>
      { editorCalls := [], sent := [Frame.pong], channelClosed := false }
    | _ => { editorCalls := [], sent := [], channelClosed := false }

/-- The `onmessage` handler of the unnamed duplicate
(src/unnamed/part_001 lines 41-75). Identical to `onMessage` except that the
`get-current-code` branch calls the duplicate `sendCurrentCodeToServerB`, whose
thrown exception is caught by the surrounding try/catch with no frame sent. -/
def onMessageB (editor : Option Editor) (wsOpen : Bool) (now : Nat)
    (parsed : Option Frame) : HandlerResult :=
  match parsed with
  | none => { editorCalls := [], sent := [], channelClosed := false }
  | some msg =>
    match msg with
    | Frame.strudelCode code _description =>
      match editor with
      | some _ =>
        { editorCalls := [EditorCall.setCode code, EditorCall.evaluate],
          sent := [], channelClosed := false }
      | none => { editorCalls := [], sent := [], channelClosed := false }
    | Frame.strudelStop | Frame.stop =>
      match editor with
      | some _ => { editorCalls := [EditorCall.stop], sent := [], channelClosed := false }
      | none => { editorCalls := [], sent := [], channelClosed := false }
    | Frame.getCurrentCode requestId =>
      match sendCurrentCodeToServerB editor wsOpen requestId now with
      | Except.ok frames =>
        { editorCalls := [], sent := frames, channelClosed := false }
      | Except.error _ =>
        { editorCalls := [], sent := [], channelClosed := false }
    | Frame.ping =>
      { editorCalls := [], sent := [Frame.pong], channelClosed := false }
    | _ => { editorCalls := [], sent := [], channelClosed := false }

/-- Recognizer for a `current-code-response` frame carrying the given
correlation token. -/
def isResponseFor (rid : String) : Frame → Bool
  | Frame.currentCodeResponse r _ _ => r == rid
  | _ => false

/-- Number of `current-code-response` frames for `rid` among the sent frames. -/
def responsesFor (rid : String) (frames : List Frame) : Nat :=
  (frames.filter (isResponseFor rid)).length

/-- Character-list version of JS `String.prototype.startsWith`. -/
def listStartsWith : List Char → List Char → Bool
  | [], _ => true
  | _ :: _, [] => false
  | a :: as, b :: bs => a == b && listStartsWith as bs

/-- Character-list version of JS `String.prototype.includes`: the first list
occurs contiguously inside the second. -/
def listHasSub (sub : List Char) : List Char → Bool
  | [] => listStartsWith sub []
  | c :: cs => listStartsWith sub (c :: cs) || listHasSub sub cs

/-- JS `s.includes(sub)` on strings. -/
def strIncludes (s sub : String) : Bool :=
  listHasSub sub.data s.data

/-- The browser location data the activation gates read. -/
structure Location where
  port : String
  host : String
  deriving DecidableEq

/-- The activation gate evaluated by `connectWebSocket` in the named hook
(lines 22-23): port 8080 or 8000, or the host string containing 8080 or
8000. -/
def isMCPServerChannel (loc : Location) : Bool :=
  loc.port == "8080" || loc.port == "8000" ||
    strIncludes loc.host "8080" || strIncludes loc.host "8000"

/-- The gate evaluated by the global-bridge effect in the named hook
(line 158): port 8080, or the host string containing 8080 — no 8000. -/
def isMCPServerBridge (loc : Location) : Bool :=
  loc.port == "8080" || strIncludes loc.host "8080"

/-- Whether the named hook publishes `window.strudelMCP` (lines 157-172): its
own gate must hold and the editor adapter must be attached. -/
def publishBridge (loc : Location) (editor : Option Editor) : Bool :=
  isMCPServerBridge loc && editor.isSome

/-- Connection-manager state of the named hook. `status` is the
`connectionStatus` React state; `wsExists` is whether `wsRef.current` holds a
live channel; `pendingReconnects` are the absolute fire times of outstanding
`setTimeout(connectWebSocket, 3000)` timers; `tornDown` is a ghost flag
recording that the unmount cleanup has run — the source keeps no such flag and
no handler reads it. -/
structure MState where
  status : String
  wsExists : Bool
  pendingReconnects : List Nat
  tornDown : Bool
  deriving DecidableEq

/-- Initial state: `useState('disconnected')`, no channel, no timers. -/
def initialState : MState :=
  { status := "disconnected", wsExists := false, pendingReconnects := [], tornDown := false }

/-- The fixed reconnect delay of `setTimeout(connectWebSocket, 3000)`. -/
def reconnectDelayMs : Nat := 3000

/-- `connectWebSocket` (lines 20-88): checks the gate once; outside the gate it
returns with no action; inside it creates the channel. No `connecting` status
is ever assigned. -/
def connectWebSocket (loc : Location) (s : MState) : MState :=
  if isMCPServerChannel loc then { s with wsExists := true } else s

/-- The `onopen` handler: sets status `connected`. -/
def wsOnOpen (s : MState) : MState := { s with status := "connected" }

/-- The `onclose` handler at time `t` (lines 78-82): sets status
`disconnected` and unconditionally schedules a reconnect at `t + 3000`. -/
def wsOnClose (t : Nat) (s : MState) : MState :=
  { s with status := "disconnected",
           pendingReconnects := s.pendingReconnects ++ [t + reconnectDelayMs] }

/-- The `onerror` handler: sets status `error` and nothing else. -/
def wsOnError (s : MState) : MState := { s with status := "error" }

/-- The `useEffect` cleanup (lines 149-153): closes the channel if one exists.
It cancels no pending timer. `tornDown` is the ghost marker of the teardown. -/
def cleanup (s : MState) : MState :=
  { s with tornDown := true, wsExists := false }

/-- A reconnect timer firing at time `t`: if such a timer is pending it is
consumed and its callback `connectWebSocket` runs — with no teardown check. -/
def timerFire (loc : Location) (t : Nat) (s : MState) : MState :=
  if s.pendingReconnects.contains t then
    connectWebSocket loc { s with pendingReconnects := s.pendingReconnects.erase t }
  else s

/-- The set of status values the handlers can leave behind. -/
def statusOK (s : MState) : Prop :=
  s.status = "disconnected" ∨ s.status = "connected" ∨ s.status = "error"

/-- Claim C7: a frame that fails to parse is logged and dropped with no editor
call, no frame sent, and the channel left open; a parsed message whose type tag
is outside the recognized set likewise executes no handler, sends nothing, and
causes no channel disruption. -/
theorem C7_malformed_and_unknown_frames_inert (editor : Option Editor)
    (wsOpen : Bool) (now : Nat) (tag : String) :
    onMessage editor wsOpen now none =
      { editorCalls := [], sent := [], channelClosed := false } ∧
    onMessage editor wsOpen now (some (Frame.other tag)) =
      { editorCalls := [], sent := [], channelClosed := false } :=
  ⟨rfl, rfl⟩

/-- Claim C8: with an editor adapter attached, a `strudel-code` message makes
the handler call `setCode` with the code field of the message and then
`evaluate`, in that order, sending nothing; and the optional
`metadata.description` has no effect whatsoever on the handler result. -/
theorem C8_strudel_code_sets_then_evaluates (ed : Editor) (editor : Option Editor)
    (wsOpen : Bool) (now : Nat) (code : String) (d1 d2 : Option String) :
    (onMessage (some ed) wsOpen now (some (Frame.strudelCode code d1))).editorCalls =
      [EditorCall.setCode code, EditorCall.evaluate] ∧
    (onMessage (some ed) wsOpen now (some (Frame.strudelCode code d1))).sent = [] ∧
    onMessage editor wsOpen now (some (Frame.strudelCode code d1)) =
      onMessage editor wsOpen now (some (Frame.strudelCode code d2)) := by
  refine ⟨rfl, rfl, ?_⟩
  cases editor <;> rfl

/-- Claim C9: every inbound `ping` yields exactly one payload-free `pong` on
the same channel, with no editor call and no channel disruption, whether or not
the editor adapter is attached. -/
theorem C9_ping_always_pongs (editor : Option Editor) (wsOpen : Bool) (now : Nat) :
    onMessage editor wsOpen now (some Frame.ping) =
      { editorCalls := [], sent := [Frame.pong], channelClosed := false } :=
  rfl

/-- Claim C10: on `strudel-code`, `strudel-stop`, `stop` and `ping` messages
the named hook handler and the unnamed duplicate handler invoke the same editor
operations in the same order and send the same reply frames. -/
theorem C10_duplicates_agree_on_common_types (editor : Option Editor)
    (wsOpen : Bool) (now : Nat) (msg : Frame)
    (h : (∃ c d, msg = Frame.strudelCode c d) ∨ msg = Frame.strudelStop ∨
      msg = Frame.stop ∨ msg = Frame.ping) :
    onMessage editor wsOpen now (some msg) = onMessageB editor wsOpen now (some msg) := by
  rcases h with ⟨c, d, rfl⟩ | rfl | rfl | rfl <;> cases editor <;> rfl

/-- Witness for C10 at the concrete message `ping` with no adapter attached. -/
theorem C10_duplicates_agree_witness :
    onMessage none true 0 (some Frame.ping) = onMessageB none true 0 (some Frame.ping) :=
  C10_duplicates_agree_on_common_types none true 0 Frame.ping
    (Or.inr (Or.inr (Or.inr rfl)))

/-- Claim C2: a `get-current-code` request answered while the channel is open
gets a response with the same request id, the timestamp captured at send time,
and a code field that is the fixed not-ready payload when the adapter is
absent, the fixed retrieval-error payload when the read throws, the fixed
placeholder when the read code is empty, and otherwise the code actually
read. -/
theorem C2_response_payload_cases (rid : String) (now : Nat) (c : String)
    (hc : c ≠ "") :
    (onMessage none true now (some (Frame.getCurrentCode rid))).sent =
      [Frame.currentCodeResponse rid "// Error: Editor not ready" now] ∧
    (onMessage (some ⟨EditorRead.throws⟩) true now (some (Frame.getCurrentCode rid))).sent =
      [Frame.currentCodeResponse rid "// Error: Could not retrieve code" now] ∧
    (onMessage (some ⟨EditorRead.value ""⟩) true now (some (Frame.getCurrentCode rid))).sent =
      [Frame.currentCodeResponse rid "// No code in editor" now] ∧
    (onMessage (some ⟨EditorRead.value c⟩) true now (some (Frame.getCurrentCode rid))).sent =
      [Frame.currentCodeResponse rid c now] := by
  refine ⟨rfl, rfl, rfl, ?_⟩
  simp [onMessage, sendCurrentCodeToServer, hc]

/-- Witness for C2 at a concrete nonempty editor content. -/
theorem C2_response_payload_witness :
    "bd sn" ≠ "" ∧
    (onMessage (some ⟨EditorRead.value "bd sn"⟩) true 7
        (some (Frame.getCurrentCode "r1"))).sent =
      [Frame.currentCodeResponse "r1" "bd sn" 7] :=
  ⟨by decide, (C2_response_payload_cases "r1" 7 "bd sn" (by decide)).2.2.2⟩

/-- Claim C3: the `onclose` handler, from every state — hence after any number
of prior closures, with no retry counter anywhere in the state — schedules
exactly one reconnect attempt at exactly `t + 3000` milliseconds, and the delay
constant is 3000. -/
theorem C3_fixed_reconnect_delay (s : MState) (t : Nat) :
    reconnectDelayMs = 3000 ∧
    (wsOnClose t s).pendingReconnects = s.pendingReconnects ++ [t + reconnectDelayMs] ∧
    (wsOnClose t s).status = "disconnected" :=
  ⟨rfl, rfl, rfl⟩

/-- Counterexample to claim C1 as stated: the claim covers both coexisting
implementations of `sendCurrentCodeToServer`, yet in the unnamed duplicate a
`get-current-code` received while the channel is open, with the editor adapter
absent, is answered with silence — no frame at all is sent. -/
theorem C1_counterexample_unnamed_silence :
    (onMessageB none true 0 (some (Frame.getCurrentCode "r1"))).sent = [] ∧
    responsesFor "r1" (onMessageB none true 0 (some (Frame.getCurrentCode "r1"))).sent ≠ 1 :=
  ⟨rfl, by decide⟩

/-- Claim C1 (amended): in the named hook, every `get-current-code` received
while the channel is open yields exactly one `current-code-response` with the
identical request id whether the adapter is attached, absent, or throws on
read; the unnamed duplicate does so only when the adapter is attached and the
read returns (there it drops the request silently when the adapter is absent,
and when the read throws). -/
theorem C1_exactly_one_response (editor : Option Editor) (rid : String)
    (now : Nat) (c : String) :
    responsesFor rid (onMessage editor true now (some (Frame.getCurrentCode rid))).sent = 1 ∧
    responsesFor rid
      (onMessageB (some ⟨EditorRead.value c⟩) true now
        (some (Frame.getCurrentCode rid))).sent = 1 := by
  constructor
  · match editor with
    | none => simp [onMessage, sendCurrentCodeToServer, responsesFor, isResponseFor]
    | some ⟨EditorRead.throws⟩ =>
      simp [onMessage, sendCurrentCodeToServer, responsesFor, isResponseFor]
    | some ⟨EditorRead.value code⟩ =>
      by_cases hc : code = "" <;>
        simp [onMessage, sendCurrentCodeToServer, responsesFor, isResponseFor, hc]
  · by_cases hc : c = "" <;>
      simp [onMessageB, sendCurrentCodeToServerB, responsesFor, isResponseFor, hc]

/-- Claim C4 is right about the intent and wrong about the code: after the
teardown cleanup runs, a reconnect timer that was pending at teardown still
fires and opens a new channel for the dead session, and the close event
triggered by the teardown itself has scheduled yet another reconnect. Scenario:
a close at t=0 scheduled a reconnect at t=3000; teardown happens at t=1000 on a
gate-satisfying host; the timer fires at t=3000. -/
theorem C4_reconnect_survives_teardown :
    (timerFire ⟨"8080", "server:8080"⟩ 3000
        (wsOnClose 1000
          (cleanup
            { status := "connected", wsExists := true,
              pendingReconnects := [3000], tornDown := false }))).tornDown = true ∧
    (timerFire ⟨"8080", "server:8080"⟩ 3000
        (wsOnClose 1000
          (cleanup
            { status := "connected", wsExists := true,
              pendingReconnects := [3000], tornDown := false }))).wsExists = true ∧
    (timerFire ⟨"8080", "server:8080"⟩ 3000
        (wsOnClose 1000
          (cleanup
            { status := "connected", wsExists := true,
              pendingReconnects := [3000], tornDown := false }))).pendingReconnects =
      [4000] := by
  decide

/-- Counterexample to claim C5 as stated: in the successful-open trace from
the initial state the status passes directly from `disconnected` to
`connected`; the value `connecting` is never assigned at any point. -/
theorem C5_counterexample_no_connecting :
    (connectWebSocket ⟨"8080", "server:8080"⟩ initialState).status = "disconnected" ∧
    (wsOnOpen (connectWebSocket ⟨"8080", "server:8080"⟩ initialState)).status = "connected" ∧
    "connecting" ∉
      [initialState.status,
        (connectWebSocket ⟨"8080", "server:8080"⟩ initialState).status,
        (wsOnOpen (connectWebSocket ⟨"8080", "server:8080"⟩ initialState)).status] := by
  refine ⟨by decide, by decide, by decide⟩

/-- Claim C5 (amended): the status only takes values in `disconnected`,
`connected`, `error` — a `connecting` value is never assigned; a successful
open moves the status directly from `disconnected` (which `connectWebSocket`
leaves untouched) to `connected`; close sets `disconnected`; transport error
sets `error` (with `disconnected` following when the accompanying close event
fires); the cleanup and a firing timer never change the status. -/
theorem C5_status_machine (s : MState) (loc : Location) (t : Nat) :
    statusOK initialState ∧
    (connectWebSocket loc s).status = s.status ∧
    (wsOnOpen s).status = "connected" ∧
    (wsOnClose t s).status = "disconnected" ∧
    (wsOnError s).status = "error" ∧
    (cleanup s).status = s.status ∧
    (timerFire loc t s).status = s.status := by
  refine ⟨Or.inl rfl, ?_, rfl, rfl, rfl, rfl, ?_⟩
  · unfold connectWebSocket
    split <;> rfl
  · unfold timerFire connectWebSocket
    split
    · split <;> rfl
    · rfl

/-- Counterexample to claim C6 as stated: on a host with port 8000 the channel
gate of `connectWebSocket` is satisfied — a channel opens — yet the bridge gate
is not, so no control object is published even with an adapter attached. The
two gates are not the same allow-list. -/
theorem C6_counterexample_port_8000 :
    isMCPServerChannel ⟨"8000", "example.com:8000"⟩ = true ∧
    publishBridge ⟨"8000", "example.com:8000"⟩ (some ⟨EditorRead.value "x"⟩) = false := by
  refine ⟨by decide, by decide⟩

/-- Claim C6 (amended): the global control object is published exactly when
the narrower bridge gate — port 8080 only — is satisfied and an adapter is
attached; that gate implies the channel gate, so outside the channel allow-list
the subsystem opens no channel and publishes no control object; but on
port-8000 hosts the channel gate is satisfied while the bridge is not
published. -/
theorem C6_bridge_gate (loc : Location) (editor : Option Editor) (s : MState) :
    (publishBridge loc editor = true ↔
      (isMCPServerBridge loc = true ∧ editor.isSome = true)) ∧
    (isMCPServerBridge loc = true → isMCPServerChannel loc = true) ∧
    (isMCPServerChannel loc = false →
      connectWebSocket loc s = s ∧ publishBridge loc editor = false) := by
  refine ⟨?_, ?_, ?_⟩
  · simp [publishBridge, Bool.and_eq_true]
  · intro h
    simp only [isMCPServerBridge, Bool.or_eq_true] at h
    simp only [isMCPServerChannel, Bool.or_eq_true]
    tauto
  · intro h
    have hb : isMCPServerBridge loc = false := by
      revert h
      simp only [isMCPServerBridge, isMCPServerChannel]
      cases loc.port == "8080" <;> cases strIncludes loc.host "8080" <;> simp
    exact ⟨by simp [connectWebSocket, h], by simp [publishBridge, hb]⟩

/-- Witness for C6 on a development host outside both allow-lists. -/
theorem C6_bridge_gate_witness :
    isMCPServerChannel ⟨"4321", "localhost:4321"⟩ = false ∧
    connectWebSocket ⟨"4321", "localhost:4321"⟩ initialState = initialState ∧
    publishBridge ⟨"4321", "localhost:4321"⟩ none = false :=
  ⟨by decide,
    ((C6_bridge_gate ⟨"4321", "localhost:4321"⟩ none initialState).2.2 (by decide)).1,
    ((C6_bridge_gate ⟨"4321", "localhost:4321"⟩ none initialState).2.2 (by decide)).2⟩

end StrudelMCP
